import Mathlib

/-!
Verification of the Financial Advisory Calculation Engine
(financial_tools_with_memory_agent.py).

Python floats are embedded as rationals; code paths that raise an
unhandled ZeroDivisionError are embedded as Option-returning functions
yielding none at exactly the inputs where the Python division faults.
-/

set_option maxRecDepth 10000
set_option maxHeartbeats 1000000

namespace FinancialTools

/-- Python str.lower, modelled over the underlying character list. -/
def lowerString (s : String) : String := ⟨s.data.map Char.toLower⟩

def risk_conservative : String := "conservative"

def risk_aggressive : String := "aggressive"

def risk_moderate : String := "moderate"

def risk_low : String := "low"

def risk_medium : String := "medium"

def risk_high : String := "high"

/-! ## Allocation Rule Engine (calculate_portfolio_allocation) -/

structure AllocationResult where
  stock_pct : ℤ
  bond_pct : ℤ
  stock_amount : ℚ
  bond_amount : ℚ
deriving DecidableEq

/-- Embeds calculate_portfolio_allocation: 100-minus-age rule with risk
adjustment; the code performs no validation of any input. -/
def calculate_portfolio_allocation (age : ℤ) (risk_tolerance : String)
    (total_amount : ℚ) : AllocationResult :=
  let risk := lowerString risk_tolerance
  let base_stock_pct : ℤ := 100 - age
  let stock_pct : ℤ :=
    if risk = risk_conservative then max 20 (base_stock_pct - 15)
    else if risk = risk_aggressive then min 90 (base_stock_pct + 15)
    else base_stock_pct
  let bond_pct : ℤ := 100 - stock_pct
  { stock_pct := stock_pct
    bond_pct := bond_pct
    stock_amount := total_amount * ((stock_pct : ℚ) / 100)
    bond_amount := total_amount * ((bond_pct : ℚ) / 100) }

/-! ## Numeric formula library (compound growth) -/

/-- Future value of a lump sum: principal * (1 + monthly_rate) ^ months. -/
def future_value_lump (principal monthly_rate : ℚ) (months : ℕ) : ℚ :=
  principal * (1 + monthly_rate) ^ months

/-- Future value of the monthly contributions exactly as the code computes
it: when monthly_contribution > 0 the code divides by monthly_rate
unconditionally, so a zero monthly rate raises ZeroDivisionError (none). -/
def future_value_annuity (monthly_contribution monthly_rate : ℚ)
    (months : ℕ) : Option ℚ :=
  if 0 < monthly_contribution then
    if monthly_rate = 0 then none
    else some (monthly_contribution * (((1 + monthly_rate) ^ months - 1) / monthly_rate))
  else some 0

/-- Total future value computed by calculate_compound_interest:
lump-sum part plus annuity part, propagating the annuity division fault. -/
def growth_future_value (principal annual_rate : ℚ) (years : ℕ)
    (monthly_contribution : ℚ) : Option ℚ :=
  (future_value_annuity monthly_contribution (annual_rate / 100 / 12) (years * 12)).map
    (fun fv_contributions =>
      future_value_lump principal (annual_rate / 100 / 12) (years * 12) + fv_contributions)

structure GrowthResult where
  future_value : ℚ
  total_invested : ℚ
  total_gains : ℚ
  roi_pct : ℚ
deriving DecidableEq

/-- Embeds calculate_compound_interest.  The ROI figure in the report is
total_gains / total_invested * 100 with no guard, so total_invested = 0
raises ZeroDivisionError (none). -/
def calculate_compound_interest (principal annual_rate : ℚ) (years : ℕ)
    (monthly_contribution : ℚ) : Option GrowthResult :=
  (growth_future_value principal annual_rate years monthly_contribution).bind
    (fun total_fv =>
      let total_invested := principal + monthly_contribution * ((years * 12 : ℕ) : ℚ)
      if total_invested = 0 then none
      else some
        { future_value := total_fv
          total_invested := total_invested
          total_gains := total_fv - total_invested
          roi_pct := (total_fv - total_invested) / total_invested * 100 })

end FinancialTools

namespace FinancialTools

/-! ## Stock Metric Classifier (evaluate_stock_metrics) -/

inductive Signal where
  | favorable
  | neutral
  | warning
deriving DecidableEq, BEq

inductive Verdict where
  | POSITIVE
  | CAUTIOUS
  | NEUTRAL
deriving DecidableEq

/-- The P/E signal chain of the code. -/
def pe_signal (pe : ℚ) : Signal :=
  if pe < 15 then Signal.favorable
  else if pe < 25 then Signal.neutral
  else Signal.warning

/-- The dividend-yield signal chain: both fallthrough branches are neutral. -/
def yield_signal (div_yield : ℚ) : Signal :=
  if div_yield > 3 then Signal.favorable
  else if div_yield > 1 then Signal.neutral
  else Signal.neutral

/-- The revenue-growth signal chain (two favorable tiers). -/
def growth_signal (revenue_growth : ℚ) : Signal :=
  if revenue_growth > 20 then Signal.favorable
  else if revenue_growth > 10 then Signal.favorable
  else if revenue_growth > 0 then Signal.neutral
  else Signal.warning

/-- The debt-to-equity signal chain. -/
def debt_signal (debt_to_equity : ℚ) : Signal :=
  if debt_to_equity < 0.5 then Signal.favorable
  else if debt_to_equity < 1.5 then Signal.neutral
  else Signal.warning

/-- Count of favorable signals (the code counts lines starting with the
check mark). -/
def count_favorable (signals : List Signal) : ℕ :=
  signals.countP (fun s => s == Signal.favorable)

/-- Count of warning signals. -/
def count_warning (signals : List Signal) : ℕ :=
  signals.countP (fun s => s == Signal.warning)

structure StockEvaluationResult where
  signals : List Signal
  overall : Verdict
deriving DecidableEq

/-- Embeds evaluate_stock_metrics: four threshold signals and the
POSITIVE-first overall verdict. -/
def evaluate_stock_metrics (pe div_yield revenue_growth debt_to_equity : ℚ) :
    StockEvaluationResult :=
  let signals := [pe_signal pe, yield_signal div_yield,
                  growth_signal revenue_growth, debt_signal debt_to_equity]
  { signals := signals
    overall :=
      if count_favorable signals ≥ 3 then Verdict.POSITIVE
      else if count_warning signals ≥ 2 then Verdict.CAUTIOUS
      else Verdict.NEUTRAL }

/-! ## Retirement Needs Solver (calculate_retirement_needs) -/

structure RetirementResult where
  years_to_retirement : ℤ
  retirement_years : ℤ
  retirement_corpus : ℚ
  fv_current : ℚ
  additional_needed : ℚ
  monthly_contribution : ℚ
deriving DecidableEq

/-- Embeds calculate_retirement_needs.  The PMT division by
(1 + monthly_rate) ^ months - 1 is unguarded, so a zero annuity factor
raises ZeroDivisionError (none).  The report prints
max(0, additional_needed), stored here in additional_needed. -/
def calculate_retirement_needs (current_age retirement_age : ℤ)
    (current_savings desired_annual_income expected_return_pct : ℚ) :
    Option RetirementResult :=
  let expected_return := expected_return_pct / 100
  let years_to_retirement := retirement_age - current_age
  let retirement_years : ℤ := 90 - retirement_age
  let retirement_corpus := desired_annual_income * 25
  let fv_current := current_savings * (1 + expected_return) ^ years_to_retirement
  let additional_needed := retirement_corpus - fv_current
  let monthly_rate := expected_return / 12
  let months := years_to_retirement * 12
  if 0 < additional_needed then
    let annuity_factor := (1 + monthly_rate) ^ months - 1
    if annuity_factor = 0 then none
    else some
      { years_to_retirement := years_to_retirement
        retirement_years := retirement_years
        retirement_corpus := retirement_corpus
        fv_current := fv_current
        additional_needed := max 0 additional_needed
        monthly_contribution := additional_needed * monthly_rate / annuity_factor }
  else some
    { years_to_retirement := years_to_retirement
      retirement_years := retirement_years
      retirement_corpus := retirement_corpus
      fv_current := fv_current
      additional_needed := max 0 additional_needed
      monthly_contribution := 0 }

/-! ## Investment Comparator (compare_investment_options) -/

inductive OptionTag where
  | optionA
  | optionB
deriving DecidableEq

inductive Recommendation where
  | optionA
  | optionB
  | comparable
deriving DecidableEq

/-- Embeds risk_scores.get(risk.lower(), 2): unrecognized strings default
to the medium score 2. -/
def risk_score_of (risk : String) : ℚ :=
  if lowerString risk = risk_low then 1
  else if lowerString risk = risk_medium then 2
  else if lowerString risk = risk_high then 3
  else 2

structure ComparisonResult where
  fv_a : ℚ
  fv_b : ℚ
  gain_a : ℚ
  gain_b : ℚ
  risk_adj_return_a : ℚ
  risk_adj_return_b : ℚ
  higher_value_option : OptionTag
  value_difference : ℚ
  recommendation : Recommendation
deriving DecidableEq

/-- Embeds compare_investment_options: lump-sum future values, risk
scoring, the winner-by-value branch (ties fall to option B), and the
1.2-margin recommendation chain. -/
def compare_investment_options (option_a_return : ℚ) (option_a_risk : String)
    (option_b_return : ℚ) (option_b_risk : String)
    (investment_amount : ℚ) (time_horizon : ℕ) : ComparisonResult :=
  let return_a := option_a_return / 100
  let return_b := option_b_return / 100
  let fv_a := investment_amount * (1 + return_a) ^ time_horizon
  let fv_b := investment_amount * (1 + return_b) ^ time_horizon
  let risk_score_a := risk_score_of option_a_risk
  let risk_score_b := risk_score_of option_b_risk
  let risk_adj_return_a := (option_a_return - 2) / risk_score_a
  let risk_adj_return_b := (option_b_return - 2) / risk_score_b
  { fv_a := fv_a
    fv_b := fv_b
    gain_a := fv_a - investment_amount
    gain_b := fv_b - investment_amount
    risk_adj_return_a := risk_adj_return_a
    risk_adj_return_b := risk_adj_return_b
    higher_value_option := if fv_a > fv_b then OptionTag.optionA else OptionTag.optionB
    value_difference := if fv_a > fv_b then fv_a - fv_b else fv_b - fv_a
    recommendation :=
      if risk_adj_return_a > risk_adj_return_b * 1.2 then Recommendation.optionA
      else if risk_adj_return_b > risk_adj_return_a * 1.2 then Recommendation.optionB
      else Recommendation.comparable }

end FinancialTools

namespace FinancialTools

/-! ## Claim theorems -/

/-- C1: the spec requires the zero-rate annuity to be special-cased to
monthly_payment * months, with GrowthRequest(1000, 0, 10, 100) returning
future_value 13000; the code instead divides by the zero monthly rate and
raises ZeroDivisionError at exactly that input (embedded as none). -/
theorem zero_rate_growth_division_fault :
    calculate_compound_interest 1000 0 10 100 = none := by
  unfold calculate_compound_interest growth_future_value future_value_annuity
  norm_num

/-- C2: the spec requires zero-denominator cases to be reported as
structured failures, never propagated as division faults; the code has no
such branches: with principal 0 and contribution 0 the ROI division
total_gains / total_invested raises ZeroDivisionError, and with a zero
monthly rate the retirement PMT division by (1+r)^n - 1 raises
ZeroDivisionError (both embedded as none). -/
theorem degenerate_division_faults_propagate :
    calculate_compound_interest 0 7 10 0 = none
  ∧ calculate_retirement_needs 30 65 0 40000 0 = none := by
  constructor
  · unfold calculate_compound_interest growth_future_value future_value_annuity
    norm_num [future_value_lump]
  · unfold calculate_retirement_needs
    norm_num

/-- C3: for every AllocationRequest (any age, any risk string, any
total_amount) the allocation satisfies stock_pct + bond_pct = 100 and
stock_amount + bond_amount = total_amount, exactly (hence within any
floating tolerance). -/
theorem allocation_sums_invariant (age : ℤ) (risk_tolerance : String) (total_amount : ℚ) :
    (calculate_portfolio_allocation age risk_tolerance total_amount).stock_pct
      + (calculate_portfolio_allocation age risk_tolerance total_amount).bond_pct = 100
  ∧ (calculate_portfolio_allocation age risk_tolerance total_amount).stock_amount
      + (calculate_portfolio_allocation age risk_tolerance total_amount).bond_amount
      = total_amount := by
  unfold calculate_portfolio_allocation
  dsimp only
  constructor
  · ring
  · push_cast
    ring

/-- C8: the stock percentage is 100 - age adjusted by risk tolerance:
conservative subtracts 15 with floor 20, aggressive adds 15 with cap 90,
moderate is unmodified (no floor or cap); the example
age 35 / moderate / 40000 gives 65/35 and 26000/14000. -/
theorem allocation_rule (age : ℤ) (total_amount : ℚ) :
    (calculate_portfolio_allocation age risk_conservative total_amount).stock_pct
      = max 20 (100 - age - 15)
  ∧ (calculate_portfolio_allocation age risk_aggressive total_amount).stock_pct
      = min 90 (100 - age + 15)
  ∧ (calculate_portfolio_allocation age risk_moderate total_amount).stock_pct = 100 - age
  ∧ calculate_portfolio_allocation 35 risk_moderate 40000 =
      { stock_pct := 65, bond_pct := 35, stock_amount := 26000, bond_amount := 14000 } := by
  refine ⟨?_, ?_, ?_, ?_⟩
  · unfold calculate_portfolio_allocation
    dsimp only
    rw [if_pos (by decide)]
  · unfold calculate_portfolio_allocation
    dsimp only
    rw [if_neg (by decide), if_pos (by decide)]
  · unfold calculate_portfolio_allocation
    dsimp only
    rw [if_neg (by decide), if_neg (by decide)]
  · unfold calculate_portfolio_allocation
    dsimp only
    rw [if_neg (by decide), if_neg (by decide)]
    norm_num [AllocationResult.mk.injEq]

/-- C9 counterexample: the claim says ages outside [0,100] are rejected
with InvalidInput; the code performs no validation and computes an
allocation from age 150 (stock_pct -50). -/
theorem allocation_no_age_validation :
    calculate_portfolio_allocation 150 risk_moderate 1000 =
      { stock_pct := -50, bond_pct := 150, stock_amount := -500, bond_amount := 1500 } := by
  unfold calculate_portfolio_allocation
  dsimp only
  rw [if_neg (by decide), if_neg (by decide)]
  norm_num [AllocationResult.mk.injEq]

/-- C9 amended: the allocation calculator never rejects an out-of-range
age; for any age < 0 or > 100 it still computes stock_pct = 100 - age
(moderate case shown). -/
theorem allocation_out_of_range_age_still_computes (age : ℤ) (total_amount : ℚ)
    (h : age < 0 ∨ 100 < age) :
    (calculate_portfolio_allocation age risk_moderate total_amount).stock_pct = 100 - age := by
  unfold calculate_portfolio_allocation
  dsimp only
  rw [if_neg (by decide), if_neg (by decide)]

/-- C9 amended, witness at age 150. -/
theorem allocation_out_of_range_age_still_computes_witness :
    (calculate_portfolio_allocation 150 risk_moderate 1000).stock_pct = 100 - 150 :=
  allocation_out_of_range_age_still_computes 150 1000 (Or.inr (by norm_num))

/-- C6: whenever the projected value of current savings (annual
compounding) covers the 25x corpus, the result reports
additional_needed = 0 and required monthly saving = 0. -/
theorem retirement_break_even (current_age retirement_age : ℤ)
    (current_savings desired_annual_income expected_return_pct : ℚ)
    (h : desired_annual_income * 25 ≤
      current_savings * (1 + expected_return_pct / 100) ^ (retirement_age - current_age)) :
    (calculate_retirement_needs current_age retirement_age current_savings
        desired_annual_income expected_return_pct).map
      (fun res => (res.additional_needed, res.monthly_contribution)) = some (0, 0) := by
  unfold calculate_retirement_needs
  dsimp only
  rw [if_neg (by rw [not_lt]; linarith)]
  rw [Option.map_some']
  rw [max_eq_left (by linarith)]

/-- C6 witness: savings 1000000 at age 30, retiring at 65, desired income
40000, zero return: corpus 1000000 is already covered. -/
theorem retirement_break_even_witness :
    (calculate_retirement_needs 30 65 1000000 40000 0).map
      (fun res => (res.additional_needed, res.monthly_contribution)) = some (0, 0) :=
  retirement_break_even 30 65 1000000 40000 0 (by norm_num)

/-- C10: when the two options' future values are exactly equal, the
winner-by-value branch tests fv_a > fv_b strictly, so the tie is
attributed to option B with a difference of 0. -/
theorem comparison_value_tie_reported_as_b (option_a_return : ℚ) (option_a_risk : String)
    (option_b_return : ℚ) (option_b_risk : String)
    (investment_amount : ℚ) (time_horizon : ℕ)
    (h : (compare_investment_options option_a_return option_a_risk option_b_return
            option_b_risk investment_amount time_horizon).fv_a
       = (compare_investment_options option_a_return option_a_risk option_b_return
            option_b_risk investment_amount time_horizon).fv_b) :
    (compare_investment_options option_a_return option_a_risk option_b_return
        option_b_risk investment_amount time_horizon).higher_value_option = OptionTag.optionB
  ∧ (compare_investment_options option_a_return option_a_risk option_b_return
        option_b_risk investment_amount time_horizon).value_difference = 0 := by
  unfold compare_investment_options at h ⊢
  dsimp only at h ⊢
  split_ifs with hgt
  · exact absurd hgt (not_lt.mpr h.le)
  · exact ⟨rfl, by rw [← h, sub_self]⟩

/-- C10 witness: equal 5 percent returns give exactly equal future values;
the report names option B with a 0.00 difference. -/
theorem comparison_value_tie_reported_as_b_witness :
    (compare_investment_options 5 risk_low 5 risk_high 1000 10).higher_value_option
      = OptionTag.optionB
  ∧ (compare_investment_options 5 risk_low 5 risk_high 1000 10).value_difference = 0 :=
  comparison_value_tie_reported_as_b 5 risk_low 5 risk_high 1000 10
    (by unfold compare_investment_options; norm_num)

end FinancialTools

namespace FinancialTools

/-- C4: each metric is labeled by its fixed thresholds (a low dividend
yield is neutral, never warning), the overall verdict is POSITIVE when
favorable signals are at least 3, else CAUTIOUS when warning signals are
at least 2, else NEUTRAL, with POSITIVE taking precedence; the example
pe 14.9, yield 3.1, growth 21, debt 0.4 gives four favorable signals and
POSITIVE. -/
theorem stock_metrics_spec (pe div_yield revenue_growth debt_to_equity : ℚ) :
    (3 ≤ count_favorable (evaluate_stock_metrics pe div_yield revenue_growth debt_to_equity).signals →
      (evaluate_stock_metrics pe div_yield revenue_growth debt_to_equity).overall = Verdict.POSITIVE)
  ∧ (count_favorable (evaluate_stock_metrics pe div_yield revenue_growth debt_to_equity).signals < 3 →
      2 ≤ count_warning (evaluate_stock_metrics pe div_yield revenue_growth debt_to_equity).signals →
      (evaluate_stock_metrics pe div_yield revenue_growth debt_to_equity).overall = Verdict.CAUTIOUS)
  ∧ (count_favorable (evaluate_stock_metrics pe div_yield revenue_growth debt_to_equity).signals < 3 →
      count_warning (evaluate_stock_metrics pe div_yield revenue_growth debt_to_equity).signals < 2 →
      (evaluate_stock_metrics pe div_yield revenue_growth debt_to_equity).overall = Verdict.NEUTRAL)
  ∧ (evaluate_stock_metrics pe div_yield revenue_growth debt_to_equity).signals
      = [pe_signal pe, yield_signal div_yield, growth_signal revenue_growth, debt_signal debt_to_equity]
  ∧ yield_signal div_yield ≠ Signal.warning
  ∧ (pe < 15 → pe_signal pe = Signal.favorable)
  ∧ (15 ≤ pe → pe < 25 → pe_signal pe = Signal.neutral)
  ∧ (25 ≤ pe → pe_signal pe = Signal.warning)
  ∧ (3 < div_yield → yield_signal div_yield = Signal.favorable)
  ∧ (div_yield ≤ 3 → yield_signal div_yield = Signal.neutral)
  ∧ (20 < revenue_growth → growth_signal revenue_growth = Signal.favorable)
  ∧ (10 < revenue_growth → revenue_growth ≤ 20 → growth_signal revenue_growth = Signal.favorable)
  ∧ (0 < revenue_growth → revenue_growth ≤ 10 → growth_signal revenue_growth = Signal.neutral)
  ∧ (revenue_growth ≤ 0 → growth_signal revenue_growth = Signal.warning)
  ∧ (debt_to_equity < 0.5 → debt_signal debt_to_equity = Signal.favorable)
  ∧ (0.5 ≤ debt_to_equity → debt_to_equity < 1.5 → debt_signal debt_to_equity = Signal.neutral)
  ∧ (1.5 ≤ debt_to_equity → debt_signal debt_to_equity = Signal.warning)
  ∧ evaluate_stock_metrics 14.9 3.1 21 0.4 =
      { signals := [Signal.favorable, Signal.favorable, Signal.favorable, Signal.favorable],
        overall := Verdict.POSITIVE } := by
  refine ⟨?_, ?_, ?_, rfl, ?_, ?_, ?_, ?_, ?_, ?_, ?_, ?_, ?_, ?_, ?_, ?_, ?_, ?_⟩
  · intro h
    unfold evaluate_stock_metrics at h ⊢
    dsimp only at h ⊢
    rw [if_pos h]
  · intro hlt hw
    unfold evaluate_stock_metrics at hlt hw ⊢
    dsimp only at hlt hw ⊢
    rw [if_neg (by omega), if_pos hw]
  · intro hlt hw
    unfold evaluate_stock_metrics at hlt hw ⊢
    dsimp only at hlt hw ⊢
    rw [if_neg (by omega), if_neg (by omega)]
  · unfold yield_signal
    split_ifs <;> decide
  · intro h
    unfold pe_signal
    split_ifs <;> first | rfl | (exfalso; linarith)
  · intro h1 h2
    unfold pe_signal
    split_ifs <;> first | rfl | (exfalso; linarith)
  · intro h
    unfold pe_signal
    split_ifs <;> first | rfl | (exfalso; linarith)
  · intro h
    unfold yield_signal
    split_ifs <;> first | rfl | (exfalso; linarith)
  · intro h
    unfold yield_signal
    split_ifs <;> first | rfl | (exfalso; linarith)
  · intro h
    unfold growth_signal
    split_ifs <;> first | rfl | (exfalso; linarith)
  · intro h1 h2
    unfold growth_signal
    split_ifs <;> first | rfl | (exfalso; linarith)
  · intro h1 h2
    unfold growth_signal
    split_ifs <;> first | rfl | (exfalso; linarith)
  · intro h
    unfold growth_signal
    split_ifs <;> first | rfl | (exfalso; linarith)
  · intro h
    unfold debt_signal
    split_ifs <;> first | rfl | (exfalso; linarith)
  · intro h1 h2
    unfold debt_signal
    split_ifs <;> first | rfl | (exfalso; linarith)
  · intro h
    unfold debt_signal
    split_ifs <;> first | rfl | (exfalso; linarith)
  · unfold evaluate_stock_metrics pe_signal yield_signal growth_signal debt_signal
    norm_num
    decide

/-- C4 witness: the POSITIVE rule applied at the boundary example. -/
theorem stock_metrics_spec_witness :
    (evaluate_stock_metrics 14.9 3.1 21 0.4).overall = Verdict.POSITIVE :=
  (stock_metrics_spec 14.9 3.1 21 0.4).1 (by
    have h := (stock_metrics_spec 14.9 3.1 21 0.4).2.2.2.1
    rw [h]
    norm_num [pe_signal, yield_signal, growth_signal, debt_signal]
    decide)

end FinancialTools

namespace FinancialTools

/-- C5: the recommendation names option A exactly when A's risk-adjusted
score ((return - 2) / risk_score, unrecognized risk strings scoring the
medium 2) exceeds B's scaled by 1.2, names option B exactly when it does
not and B's score exceeds A's scaled by 1.2, and otherwise — both scores
within the 20 percent margin of each other — declares the options
comparable, regardless of the future values. -/
theorem comparison_recommendation_margin (option_a_return : ℚ) (option_a_risk : String)
    (option_b_return : ℚ) (option_b_risk : String)
    (investment_amount : ℚ) (time_horizon : ℕ) :
    ((compare_investment_options option_a_return option_a_risk option_b_return option_b_risk
          investment_amount time_horizon).recommendation = Recommendation.comparable
      ↔ (compare_investment_options option_a_return option_a_risk option_b_return option_b_risk
            investment_amount time_horizon).risk_adj_return_a
          ≤ (compare_investment_options option_a_return option_a_risk option_b_return option_b_risk
              investment_amount time_horizon).risk_adj_return_b * 1.2
        ∧ (compare_investment_options option_a_return option_a_risk option_b_return option_b_risk
              investment_amount time_horizon).risk_adj_return_b
          ≤ (compare_investment_options option_a_return option_a_risk option_b_return option_b_risk
              investment_amount time_horizon).risk_adj_return_a * 1.2)
  ∧ ((compare_investment_options option_a_return option_a_risk option_b_return option_b_risk
          investment_amount time_horizon).recommendation = Recommendation.optionA
      ↔ (compare_investment_options option_a_return option_a_risk option_b_return option_b_risk
            investment_amount time_horizon).risk_adj_return_a
        > (compare_investment_options option_a_return option_a_risk option_b_return option_b_risk
            investment_amount time_horizon).risk_adj_return_b * 1.2)
  ∧ ((compare_investment_options option_a_return option_a_risk option_b_return option_b_risk
          investment_amount time_horizon).recommendation = Recommendation.optionB
      ↔ ¬ (compare_investment_options option_a_return option_a_risk option_b_return option_b_risk
              investment_amount time_horizon).risk_adj_return_a
          > (compare_investment_options option_a_return option_a_risk option_b_return option_b_risk
              investment_amount time_horizon).risk_adj_return_b * 1.2
        ∧ (compare_investment_options option_a_return option_a_risk option_b_return option_b_risk
              investment_amount time_horizon).risk_adj_return_b
          > (compare_investment_options option_a_return option_a_risk option_b_return option_b_risk
              investment_amount time_horizon).risk_adj_return_a * 1.2)
  ∧ (compare_investment_options option_a_return option_a_risk option_b_return option_b_risk
        investment_amount time_horizon).risk_adj_return_a
      = (option_a_return - 2) / risk_score_of option_a_risk
  ∧ (compare_investment_options option_a_return option_a_risk option_b_return option_b_risk
        investment_amount time_horizon).risk_adj_return_b
      = (option_b_return - 2) / risk_score_of option_b_risk
  ∧ (∀ s : String, lowerString s ≠ risk_low → lowerString s ≠ risk_medium →
      lowerString s ≠ risk_high → risk_score_of s = 2) := by
  unfold compare_investment_options
  dsimp only
  refine ⟨?_, ?_, ?_, rfl, rfl, ?_⟩
  · split_ifs with h1 h2
    · exact iff_of_false (by decide) (fun hc => absurd h1 (not_lt.mpr hc.1))
    · exact iff_of_false (by decide) (fun hc => absurd h2 (not_lt.mpr hc.2))
    · exact iff_of_true rfl ⟨not_lt.mp h1, not_lt.mp h2⟩
  · split_ifs with h1 h2
    · exact iff_of_true rfl h1
    · exact iff_of_false (by decide) h1
    · exact iff_of_false (by decide) h1
  · split_ifs with h1 h2
    · exact iff_of_false (by decide) (fun hc => hc.1 h1)
    · exact iff_of_true rfl ⟨h1, h2⟩
    · exact iff_of_false (by decide) (fun hc => h2 hc.2)
  · intro s h1 h2 h3
    unfold risk_score_of
    rw [if_neg h1, if_neg h2, if_neg h3]

/-- C5 witness: returns 10 and 9 at medium risk have scores 4 and 3.5,
within the margin, so the recommendation is comparable even though option
A's future value is strictly higher. -/
theorem comparison_recommendation_margin_witness :
    (compare_investment_options 10 risk_medium 9 risk_medium 1000 5).recommendation
      = Recommendation.comparable :=
  ((comparison_recommendation_margin 10 risk_medium 9 risk_medium 1000 5).1).mpr
    (by
      have hm : risk_score_of risk_medium = 2 := rfl
      unfold compare_investment_options
      dsimp only
      rw [hm]
      norm_num)

end FinancialTools

namespace FinancialTools

/-- C7 counterexample: at annual_rate -50 (legal, between -100 and 0) with
principal 1000 and no contribution, the future value after 2 years is
strictly below the future value after 1 year, so future_value is not
non-decreasing in years over the claimed domain. -/
theorem growth_not_monotone_in_years :
    growth_future_value 1000 (-50) 1 0 = some (1000 * (23/24 : ℚ) ^ 12 + 0)
  ∧ growth_future_value 1000 (-50) 2 0 = some (1000 * (23/24 : ℚ) ^ 24 + 0)
  ∧ 1000 * (23/24 : ℚ) ^ 24 < 1000 * (23/24 : ℚ) ^ 12 := by
  refine ⟨?_, ?_, by norm_num⟩ <;>
    · unfold growth_future_value future_value_annuity future_value_lump
      norm_num

/-- The annuity factor ((1+r)^m - 1) / r is the geometric sum of (1+r)^i
for i below m whenever r is nonzero. -/
theorem annuity_factor_eq_geom_sum (r : ℚ) (hr : r ≠ 0) (m : ℕ) :
    ((1 + r) ^ m - 1) / r = ∑ i ∈ Finset.range m, (1 + r) ^ i := by
  have h1 : (1 + r : ℚ) ≠ 1 := fun h => hr (by linear_combination h)
  rw [geom_sum_eq h1 m, add_sub_cancel_left]

/-- Characterization of a successful growth_future_value computation. -/
theorem growth_future_value_some (p r : ℚ) (y : ℕ) (c : ℚ) (v : ℚ)
    (h : growth_future_value p r y c = some v) :
    (0 < c → r / 100 / 12 ≠ 0) ∧
    v = future_value_lump p (r / 100 / 12) (y * 12) +
        (if 0 < c then c * (((1 + r / 100 / 12) ^ (y * 12) - 1) / (r / 100 / 12)) else 0) := by
  unfold growth_future_value future_value_annuity at h
  by_cases hc : 0 < c
  · rw [if_pos hc] at h
    by_cases hr : r / 100 / 12 = 0
    · rw [if_pos hr] at h
      simp at h
    · rw [if_neg hr, Option.map_some'] at h
      refine ⟨fun _ => hr, ?_⟩
      rw [if_pos hc]
      exact (Option.some.inj h).symm
  · rw [if_neg hc, Option.map_some'] at h
    refine ⟨fun hc0 => absurd hc0 hc, ?_⟩
    rw [if_neg hc]
    exact (Option.some.inj h).symm

/-- C7 amended: with nonnegative principal and contribution, the computed
future value is non-decreasing in years whenever annual_rate is
nonnegative (for negative rates it can strictly decrease, see the
counterexample), and non-decreasing in annual_rate over the legal domain
(rate above -100) wherever the calculator produces a value. -/
theorem growth_future_value_monotone (p c : ℚ) (hp : 0 ≤ p) (hc : 0 ≤ c) :
    (∀ (r : ℚ) (y1 y2 : ℕ) (v1 v2 : ℚ), 0 ≤ r → y1 ≤ y2 →
        growth_future_value p r y1 c = some v1 →
        growth_future_value p r y2 c = some v2 → v1 ≤ v2)
  ∧ (∀ (r1 r2 : ℚ) (y : ℕ) (v1 v2 : ℚ), -100 < r1 → r1 ≤ r2 →
        growth_future_value p r1 y c = some v1 →
        growth_future_value p r2 y c = some v2 → v1 ≤ v2) := by
  constructor
  · intro r y1 y2 v1 v2 hr hy h1 h2
    obtain ⟨hne1, hv1⟩ := growth_future_value_some p r y1 c v1 h1
    obtain ⟨hne2, hv2⟩ := growth_future_value_some p r y2 c v2 h2
    subst hv1
    subst hv2
    have hmr : (0:ℚ) ≤ r / 100 / 12 := by positivity
    apply add_le_add
    · unfold future_value_lump
      apply mul_le_mul_of_nonneg_left _ hp
      exact pow_le_pow_right₀ (by linarith) (by omega)
    · by_cases hcpos : 0 < c
      · rw [if_pos hcpos, if_pos hcpos]
        have hrne := hne1 hcpos
        rw [annuity_factor_eq_geom_sum _ hrne, annuity_factor_eq_geom_sum _ hrne]
        apply mul_le_mul_of_nonneg_left _ hc
        apply Finset.sum_le_sum_of_subset_of_nonneg
        · exact Finset.range_subset.mpr (by omega)
        · intro i _ _
          apply pow_nonneg
          linarith
      · rw [if_neg hcpos, if_neg hcpos]
  · intro r1 r2 y v1 v2 hr1 hr12 h1 h2
    obtain ⟨hne1, hv1⟩ := growth_future_value_some p r1 y c v1 h1
    obtain ⟨hne2, hv2⟩ := growth_future_value_some p r2 y c v2 h2
    subst hv1
    subst hv2
    have hb1 : (0:ℚ) < 1 + r1 / 100 / 12 := by linarith
    have hble : 1 + r1 / 100 / 12 ≤ 1 + r2 / 100 / 12 := by linarith
    apply add_le_add
    · unfold future_value_lump
      apply mul_le_mul_of_nonneg_left _ hp
      exact pow_le_pow_left₀ (by linarith) hble _
    · by_cases hcpos : 0 < c
      · rw [if_pos hcpos, if_pos hcpos]
        apply mul_le_mul_of_nonneg_left _ hc
        rw [annuity_factor_eq_geom_sum _ (hne1 hcpos), annuity_factor_eq_geom_sum _ (hne2 hcpos)]
        apply Finset.sum_le_sum
        intro i _
        exact pow_le_pow_left₀ (by linarith) hble _
      · rw [if_neg hcpos, if_neg hcpos]

/-- C7 amended witness: at a 10 percent rate the 1-year future value of
1000 is at most the 2-year future value. -/
theorem growth_future_value_monotone_witness :
    (1000 : ℚ) * (121/120) ^ 12 + 0 ≤ (1000 : ℚ) * (121/120) ^ 24 + 0 :=
  (growth_future_value_monotone 1000 0 (by norm_num) (le_refl 0)).1 10 1 2
    ((1000 : ℚ) * (121/120) ^ 12 + 0) ((1000 : ℚ) * (121/120) ^ 24 + 0)
    (by norm_num) (by omega)
    (by unfold growth_future_value future_value_annuity future_value_lump; norm_num)
    (by unfold growth_future_value future_value_annuity future_value_lump; norm_num)

end FinancialTools
